import Mathlib

/-!
Verification of the WeatherGateway component of the mcp-servers repository.

The gateway (gaode_weather.py) wraps one upstream REST weather endpoint in
two operations, `get_weather_live` and `get_weather_forecast`, and the
server (server.py) adds a static city-code resource `get_city_codes`.
The embedding below models the decoded JSON values the Python code
manipulates, the dynamic semantics of the dictionary and list accesses it
performs (including the exceptions they can raise, which the code catches
with a blanket handler), and the request parameters it sends upstream.
-/

/-- A decoded JSON value, as produced by the json decoding of the response
body.  Numbers are modelled as integers; the upstream API only uses string
fields, so no claim depends on float behaviour. -/
inductive Json where
  | null : Json
  | bool : Bool → Json
  | num : Int → Json
  | str : String → Json
  | arr : List Json → Json
  | obj : List (String × Json) → Json

/-- First-match lookup of a key in the field list of a JSON object,
mirroring lookup in a Python dict (whose keys are unique). -/
def lookupField : List (String × Json) → String → Option Json
  | [], _ => none
  | (k, v) :: rest, key => if k = key then some v else lookupField rest key

/-- Python truthiness of a decoded JSON value: None, False, 0, empty
string, empty list and empty dict are falsy, everything else truthy. -/
def truthy : Json → Bool
  | Json.null => false
  | Json.bool b => b
  | Json.num n => n ≠ 0
  | Json.str s => s ≠ ""
  | Json.arr l => !l.isEmpty
  | Json.obj l => !l.isEmpty

/-- Semantics of `data.get(key)` in Python: on a dict it returns the value
or None when the key is missing; on any non-dict decoded value it raises
AttributeError (JSON null decodes to None, so a present-null field and a
missing field are indistinguishable, both give None). -/
def pyGet : Json → String → Except String Json
  | Json.obj fields, key =>
      match lookupField fields key with
      | some v => Except.ok v
      | none => Except.ok Json.null
  | _, _ => Except.error "AttributeError: object has no attribute get"

/-- Semantics of `data[key]` for a string key: value on a dict with the
key present, KeyError when absent, TypeError on non-dicts. -/
def pySubscript : Json → String → Except String Json
  | Json.obj fields, key =>
      match lookupField fields key with
      | some v => Except.ok v
      | none => Except.error "KeyError"
  | _, _ => Except.error "TypeError: value is not subscriptable"

/-- Semantics of `len(v)`: defined on strings, lists and dicts, TypeError
on numbers, booleans and None. -/
def pyLen : Json → Except String Nat
  | Json.str s => Except.ok s.length
  | Json.arr l => Except.ok l.length
  | Json.obj l => Except.ok l.length
  | _ => Except.error "TypeError: object has no len"

/-- Semantics of `v[0]`: first element of a list (IndexError when empty),
one-character string of a string, KeyError on a dict (JSON object keys are
strings, so the integer key 0 is never present), TypeError otherwise. -/
def pyIndexZero : Json → Except String Json
  | Json.arr (a :: _) => Except.ok a
  | Json.arr [] => Except.error "IndexError: list index out of range"
  | Json.str s =>
      match s.toList with
      | c :: _ => Except.ok (Json.str (String.mk [c]))
      | [] => Except.error "IndexError: string index out of range"
  | Json.obj _ => Except.error "KeyError: 0"
  | _ => Except.error "TypeError: value is not subscriptable"

/-- Python equality of a decoded value with the string literal "1": only
the JSON string "1" compares equal (in Python, 1 == "1" is False). -/
def isStrOne : Json → Bool
  | Json.str s => s = "1"
  | _ => false

/-- The ErrorResult built when the decoded body fails the status/array
check: the fixed message and the full decoded body under raw_response. -/
def shapeErrorResult (data : Json) : Json :=
  Json.obj [("error", Json.str "API返回的数据格式不正确"), ("raw_response", data)]

/-- The body of the status/array check and extraction of gaode_weather.py
(lines 68-71 for live, 104-107 for forecast), with the short-circuit
evaluation order of the Python condition
`data.get("status") == "1" and data.get(key) and len(data[key]) > 0`:
a raised exception is an `Except.error`, a returned dict an `Except.ok`. -/
def checkAndTakeFirst (data : Json) (key : String) : Except String Json := do
  let status ← pyGet data "status"
  if isStrOne status then
    let records ← pyGet data key
    if truthy records then
      let v ← pySubscript data key
      let n ← pyLen v
      if 0 < n then
        pyIndexZero v
      else
        pure (shapeErrorResult data)
    else
      pure (shapeErrorResult data)
  else
    pure (shapeErrorResult data)

/-- Behaviour of one upstream HTTP exchange, from the point of view of the
try-block: either some step before a decoded body is available raises
(network failure, non-2xx status via raise_for_status, malformed JSON), or
a decoded JSON body is produced. -/
inductive Upstream where
  | raise : String → Upstream
  | body : Json → Upstream

/-- The query parameters of one GET request to the upstream API. -/
structure RequestParams where
  key : String
  city : String
  extensions : String
  output : String
deriving DecidableEq, Repr

/-- One GET request: target URL and query parameters. -/
structure GetRequest where
  url : String
  params : RequestParams
deriving DecidableEq, Repr

/-- The gateway configuration: credential and endpoint root. -/
structure GaodeWeatherAPI where
  api_key : String
  base_url : String
deriving DecidableEq, Repr

/-- The ErrorResult built by the blanket exception handler of
get_weather_live: message plus the text of the caught exception. -/
def liveExceptionResult (e : String) : Json :=
  Json.obj [("error", Json.str ("获取天气数据失败: " ++ e))]

/-- The ErrorResult built by the blanket exception handler of
get_weather_forecast. -/
def forecastExceptionResult (e : String) : Json :=
  Json.obj [("error", Json.str ("获取天气预报数据失败: " ++ e))]

/-- GaodeWeatherAPI.get_weather_live: issues one GET request to
base_url/weatherInfo with key, city, extensions=base, output=JSON, then
returns the first element of the lives array on success and an ErrorResult
on any failure.  The result records the list of requests issued (always
exactly one: the code performs no retry) together with the returned dict. -/
def GaodeWeatherAPI.get_weather_live (api : GaodeWeatherAPI) (city : String)
    (u : Upstream) : List GetRequest × Json :=
  let req : GetRequest :=
    { url := api.base_url ++ "/weatherInfo",
      params := { key := api.api_key, city := city,
                  extensions := "base", output := "JSON" } }
  let result : Json :=
    match u with
    | Upstream.raise e => liveExceptionResult e
    | Upstream.body data =>
        match checkAndTakeFirst data "lives" with
        | Except.ok v => v
        | Except.error e => liveExceptionResult e
  ([req], result)

/-- GaodeWeatherAPI.get_weather_forecast: same shape as get_weather_live
but with extensions=all and the forecasts array. -/
def GaodeWeatherAPI.get_weather_forecast (api : GaodeWeatherAPI) (city : String)
    (u : Upstream) : List GetRequest × Json :=
  let req : GetRequest :=
    { url := api.base_url ++ "/weatherInfo",
      params := { key := api.api_key, city := city,
                  extensions := "all", output := "JSON" } }
  let result : Json :=
    match u with
    | Upstream.raise e => forecastExceptionResult e
    | Upstream.body data =>
        match checkAndTakeFirst data "forecasts" with
        | Except.ok v => v
        | Except.error e => forecastExceptionResult e
  ([req], result)

/-- Whether a returned dict carries the given top-level field. -/
def hasField (j : Json) (key : String) : Bool :=
  match j with
  | Json.obj fields => (lookupField fields key).isSome
  | _ => false

/-- Top-level field access on a returned dict, as an Option. -/
def getField (j : Json) (key : String) : Option Json :=
  match j with
  | Json.obj fields => lookupField fields key
  | _ => none

/-- The hardcoded province-to-cities table of server.py (get_city_codes),
in source order (Python dicts preserve insertion order). -/
def city_codes : List (String × List (String × String)) :=
  [("北京", [("北京", "110000")]),
   ("上海", [("上海", "310000")]),
   ("广东", [("广州", "440100"), ("深圳", "440300"), ("珠海", "440400")]),
   ("江苏", [("南京", "320100"), ("苏州", "320500"), ("无锡", "320200")]),
   ("浙江", [("杭州", "330100"), ("宁波", "330200"), ("温州", "330300")])]

/-- get_city_codes of server.py: for a province present in the table,
a header line followed by one line per city; otherwise a not-found message
listing the available provinces. -/
def get_city_codes (province : String) : String :=
  match city_codes.lookup province with
  | some cities =>
      cities.foldl (fun acc p => acc ++ "- " ++ p.1 ++ ": " ++ p.2 ++ "\n")
        (province ++ "省主要城市代码:\n")
  | none =>
      "未找到 " ++ province ++ " 的城市代码信息。可用的省份有: "
        ++ String.intercalate ", " (city_codes.map (fun p => p.1))

/-- The live weather record of the success test of test_gaode_weather.py
(and of the concrete scenario of the spec): Beijing, temperature "25". -/
def bjRecord : Json :=
  Json.obj [("province", Json.str "北京"), ("city", Json.str "北京市"),
            ("adcode", Json.str "110000"), ("weather", Json.str "晴"),
            ("temperature", Json.str "25"), ("winddirection", Json.str "西"),
            ("windpower", Json.str "4"), ("humidity", Json.str "30"),
            ("reporttime", Json.str "2025-04-01 15:00:00")]

/-- The fields of the successful live envelope around `bjRecord`. -/
def bjLiveFields : List (String × Json) :=
  [("status", Json.str "1"), ("count", Json.str "1"),
   ("info", Json.str "OK"), ("lives", Json.arr [bjRecord])]

/-- The successful live envelope around `bjRecord`. -/
def bjLiveBody : Json := Json.obj bjLiveFields

/-- The fields of the INVALID_KEY failure envelope of the error test of
test_gaode_weather.py and the concrete scenario of the spec. -/
def invalidKeyFields : List (String × Json) :=
  [("status", Json.str "0"), ("info", Json.str "INVALID_KEY"),
   ("infocode", Json.str "10001")]

/-- The INVALID_KEY failure envelope. -/
def invalidKeyBody : Json := Json.obj invalidKeyFields

/-- The first day-entry of the forecast success test, dated 2025-04-01. -/
def fcDay1 : Json :=
  Json.obj [("date", Json.str "2025-04-01"), ("week", Json.str "2"),
            ("dayweather", Json.str "晴"), ("nightweather", Json.str "多云"),
            ("daytemp", Json.str "28"), ("nighttemp", Json.str "15"),
            ("daywind", Json.str "西"), ("nightwind", Json.str "西"),
            ("daypower", Json.str "4"), ("nightpower", Json.str "3")]

/-- The second day-entry of the forecast success test, dated 2025-04-02. -/
def fcDay2 : Json :=
  Json.obj [("date", Json.str "2025-04-02"), ("week", Json.str "3"),
            ("dayweather", Json.str "多云"), ("nightweather", Json.str "小雨"),
            ("daytemp", Json.str "25"), ("nighttemp", Json.str "14"),
            ("daywind", Json.str "南"), ("nightwind", Json.str "南"),
            ("daypower", Json.str "3"), ("nightpower", Json.str "3")]

/-- The fields of the first (and only) forecast group of the forecast
success test, carrying the two day-entries in upstream order. -/
def fcGroupFields : List (String × Json) :=
  [("city", Json.str "北京市"), ("adcode", Json.str "110000"),
   ("province", Json.str "北京"), ("reporttime", Json.str "2025-04-01 15:00:00"),
   ("casts", Json.arr [fcDay1, fcDay2])]

/-- The fields of the successful forecast envelope of the tests. -/
def fcBodyFields : List (String × Json) :=
  [("status", Json.str "1"), ("count", Json.str "1"),
   ("info", Json.str "OK"), ("forecasts", Json.arr [Json.obj fcGroupFields])]

/-- A gateway configured exactly as in the tests. -/
def testApi : GaodeWeatherAPI :=
  { api_key := "test_key", base_url := "https://test.example.com/v3/weather" }

example : checkAndTakeFirst bjLiveBody "lives" = Except.ok bjRecord := by rfl

example :
    checkAndTakeFirst invalidKeyBody "lives"
      = Except.ok (shapeErrorResult invalidKeyBody) := by rfl

example :
    (testApi.get_weather_live "110000" (Upstream.body bjLiveBody)).2 = bjRecord := by
  rfl

example :
    (testApi.get_weather_live "110000" (Upstream.raise "网络连接错误")).2
      = Json.obj [("error", Json.str "获取天气数据失败: 网络连接错误")] := by rfl

example : checkAndTakeFirst (Json.arr []) "lives" = Except.error "AttributeError: object has no attribute get" := by rfl

example :
    checkAndTakeFirst
        (Json.obj [("status", Json.str "1"), ("lives", Json.num 5)]) "lives"
      = Except.error "TypeError: object has no len" := by rfl

example : get_city_codes "北京" = "北京省主要城市代码:\n- 北京: 110000\n" := by rfl

example :
    get_city_codes "山东"
      = "未找到 山东 的城市代码信息。可用的省份有: 北京, 上海, 广东, 江苏, 浙江" := by rfl

theorem exceptBindOk {α β : Type} (a : α) (f : α → Except String β) :
    (Except.ok a : Except String α) >>= f = f a := rfl

theorem exceptBindErr {α β : Type} (e : String) (f : α → Except String β) :
    (Except.error e : Except String α) >>= f = Except.error e := rfl

theorem pyGet_obj (fields : List (String × Json)) (k : String) :
    pyGet (Json.obj fields) k
      = Except.ok ((lookupField fields k).getD Json.null) := by
  cases h : lookupField fields k <;> simp [pyGet, h]

/-- C1: for every upstream response with status "1" and a lives array
containing at least one record, get_weather_live returns exactly the first
element of that array, unchanged (the record is returned as the very value
decoded from the body, so every field, including a numeric-looking
temperature string, is passed through without coercion). -/
theorem get_weather_live_first_record (api : GaodeWeatherAPI) (city : String)
    (fields : List (String × Json)) (r : Json) (rs : List Json)
    (hstatus : lookupField fields "status" = some (Json.str "1"))
    (hlives : lookupField fields "lives" = some (Json.arr (r :: rs))) :
    (api.get_weather_live city (Upstream.body (Json.obj fields))).2 = r := by
  have hch : checkAndTakeFirst (Json.obj fields) "lives" = Except.ok r := by
    simp [checkAndTakeFirst, pyGet_obj, hstatus, hlives, isStrOne, truthy,
          pySubscript, pyLen, pyIndexZero, exceptBindOk]
  simp [GaodeWeatherAPI.get_weather_live, hch]

/-- Witness for C1: the Beijing scenario of the tests and the spec, with
the temperature kept as the string "25". -/
theorem get_weather_live_first_record_witness :
    lookupField bjLiveFields "status" = some (Json.str "1")
    ∧ lookupField bjLiveFields "lives" = some (Json.arr (bjRecord :: []))
    ∧ (testApi.get_weather_live "110000" (Upstream.body (Json.obj bjLiveFields))).2
        = bjRecord
    ∧ getField bjRecord "temperature" = some (Json.str "25")
    ∧ getField bjRecord "city" = some (Json.str "北京市") :=
  ⟨by rfl, by rfl,
   get_weather_live_first_record testApi "110000" bjLiveFields bjRecord []
     (by rfl) (by rfl),
   by rfl, by rfl⟩

theorem exceptPure {α : Type} (a : α) :
    (pure a : Except String α) = Except.ok a := rfl

theorem isStrOne_getD_false (o : Option Json)
    (h : o ≠ some (Json.str "1")) :
    isStrOne (o.getD Json.null) = false := by
  cases o with
  | none => rfl
  | some v => cases v <;> simp_all [isStrOne]

theorem checkAndTakeFirst_shape_error (fields : List (String × Json))
    (key : String)
    (h : isStrOne ((lookupField fields "status").getD Json.null) = false
         ∨ truthy ((lookupField fields key).getD Json.null) = false) :
    checkAndTakeFirst (Json.obj fields) key
      = Except.ok (shapeErrorResult (Json.obj fields)) := by
  rcases h with h | h
  · simp [checkAndTakeFirst, pyGet_obj, h, exceptBindOk, exceptPure]
  · cases hb : isStrOne ((lookupField fields "status").getD Json.null)
    · simp [checkAndTakeFirst, pyGet_obj, hb, exceptBindOk, exceptPure]
    · simp [checkAndTakeFirst, pyGet_obj, hb, h, exceptBindOk, exceptPure]

/-- C2: for every decoded upstream body (a JSON object, the shape of every
upstream envelope) whose status field is not "1", or whose lives array is
missing or empty, get_weather_live returns the one normalized ErrorResult
whose raw_response field is the full decoded body — the status-"0" failure
envelope and the empty/missing-array case land in the same branch. -/
theorem get_weather_live_raw_response (api : GaodeWeatherAPI) (city : String)
    (fields : List (String × Json))
    (h : lookupField fields "status" ≠ some (Json.str "1")
         ∨ lookupField fields "lives" = none
         ∨ lookupField fields "lives" = some (Json.arr [])) :
    (api.get_weather_live city (Upstream.body (Json.obj fields))).2
        = shapeErrorResult (Json.obj fields)
    ∧ getField (api.get_weather_live city (Upstream.body (Json.obj fields))).2
        "raw_response" = some (Json.obj fields) := by
  have hch : checkAndTakeFirst (Json.obj fields) "lives"
      = Except.ok (shapeErrorResult (Json.obj fields)) := by
    apply checkAndTakeFirst_shape_error
    rcases h with h | h | h
    · exact Or.inl (isStrOne_getD_false _ h)
    · exact Or.inr (by simp [h, truthy])
    · exact Or.inr (by simp [h, truthy])
  have hres : (api.get_weather_live city (Upstream.body (Json.obj fields))).2
      = shapeErrorResult (Json.obj fields) := by
    simp [GaodeWeatherAPI.get_weather_live, hch]
  exact ⟨hres, by rw [hres]; rfl⟩

/-- Witness for C2: the INVALID_KEY failure envelope of the tests, and a
status-"1" envelope with an empty lives array, both yielding the same
normalized ErrorResult around their own body. -/
theorem get_weather_live_raw_response_witness :
    ((testApi.get_weather_live "110000" (Upstream.body (Json.obj invalidKeyFields))).2
        = shapeErrorResult (Json.obj invalidKeyFields)
      ∧ getField (testApi.get_weather_live "110000"
          (Upstream.body (Json.obj invalidKeyFields))).2 "raw_response"
        = some (Json.obj invalidKeyFields))
    ∧ ((testApi.get_weather_live "110000"
          (Upstream.body (Json.obj [("status", Json.str "1"),
                                    ("lives", Json.arr [])]))).2
        = shapeErrorResult (Json.obj [("status", Json.str "1"),
                                      ("lives", Json.arr [])]))
    ∧ getField (Json.obj invalidKeyFields) "info" = some (Json.str "INVALID_KEY") :=
  ⟨get_weather_live_raw_response testApi "110000" invalidKeyFields
     (Or.inl (by simp [invalidKeyFields, lookupField])),
   (get_weather_live_raw_response testApi "110000"
     [("status", Json.str "1"), ("lives", Json.arr [])]
     (Or.inr (Or.inr (by simp [lookupField])))).1,
   by rfl⟩

/-- C4: for every upstream body with status "1" and a nonempty forecasts
array, get_weather_forecast returns exactly the first forecast group, and
in particular the casts day-sequence of that group is returned with the
same entries in the same order as in the upstream body. -/
theorem get_weather_forecast_first_group (api : GaodeWeatherAPI)
    (city : String) (fields : List (String × Json)) (g : Json) (gs : List Json)
    (hstatus : lookupField fields "status" = some (Json.str "1"))
    (hfc : lookupField fields "forecasts" = some (Json.arr (g :: gs))) :
    (api.get_weather_forecast city (Upstream.body (Json.obj fields))).2 = g
    ∧ ∀ gf cs, g = Json.obj gf → lookupField gf "casts" = some (Json.arr cs) →
        getField (api.get_weather_forecast city
            (Upstream.body (Json.obj fields))).2 "casts" = some (Json.arr cs) := by
  have hch : checkAndTakeFirst (Json.obj fields) "forecasts" = Except.ok g := by
    simp [checkAndTakeFirst, pyGet_obj, hstatus, hfc, isStrOne, truthy,
          pySubscript, pyLen, pyIndexZero, exceptBindOk]
  have hres : (api.get_weather_forecast city (Upstream.body (Json.obj fields))).2
      = g := by
    simp [GaodeWeatherAPI.get_weather_forecast, hch]
  refine ⟨hres, ?_⟩
  intro gf cs hg hcasts
  rw [hres, hg]
  simpa [getField] using hcasts

/-- Witness for C4: the two-day forecast scenario of the tests; the casts
sequence comes back with both days in upstream order, index 0 being the
entry dated 2025-04-01. -/
theorem get_weather_forecast_first_group_witness :
    (testApi.get_weather_forecast "110000"
        (Upstream.body (Json.obj fcBodyFields))).2 = Json.obj fcGroupFields
    ∧ getField (testApi.get_weather_forecast "110000"
        (Upstream.body (Json.obj fcBodyFields))).2 "casts"
      = some (Json.arr [fcDay1, fcDay2])
    ∧ getField fcDay1 "date" = some (Json.str "2025-04-01")
    ∧ getField fcDay2 "date" = some (Json.str "2025-04-02") :=
  ⟨(get_weather_forecast_first_group testApi "110000" fcBodyFields
      (Json.obj fcGroupFields) [] (by rfl) (by rfl)).1,
   (get_weather_forecast_first_group testApi "110000" fcBodyFields
      (Json.obj fcGroupFields) [] (by rfl) (by rfl)).2 fcGroupFields
      [fcDay1, fcDay2] rfl (by rfl),
   by rfl, by rfl⟩

/-- C3: neither operation ever surfaces a raised fault: for every upstream
behaviour (network exception, non-2xx status, malformed JSON, missing
field, non-success upstream status, and any exception raised while the
body is inspected) the returned value is either a dict carrying an error
field, or the value that the status/array check extracted from the decoded
body without any exception. -/
theorem weather_gateway_absorbs_failures (api : GaodeWeatherAPI)
    (city : String) (u : Upstream) :
    (hasField (api.get_weather_live city u).2 "error" = true
      ∨ ∃ data, u = Upstream.body data
          ∧ checkAndTakeFirst data "lives"
              = Except.ok (api.get_weather_live city u).2)
    ∧ (hasField (api.get_weather_forecast city u).2 "error" = true
      ∨ ∃ data, u = Upstream.body data
          ∧ checkAndTakeFirst data "forecasts"
              = Except.ok (api.get_weather_forecast city u).2) := by
  constructor
  · cases u with
    | raise e => exact Or.inl (by rfl)
    | body data =>
      cases h : checkAndTakeFirst data "lives" with
      | ok v =>
        exact Or.inr ⟨data, rfl, by simp [GaodeWeatherAPI.get_weather_live, h]⟩
      | error e =>
        exact Or.inl (by
          simp [GaodeWeatherAPI.get_weather_live, h, liveExceptionResult,
                hasField, lookupField])
  · cases u with
    | raise e => exact Or.inl (by rfl)
    | body data =>
      cases h : checkAndTakeFirst data "forecasts" with
      | ok v =>
        exact Or.inr ⟨data, rfl, by simp [GaodeWeatherAPI.get_weather_forecast, h]⟩
      | error e =>
        exact Or.inl (by
          simp [GaodeWeatherAPI.get_weather_forecast, h, forecastExceptionResult,
                hasField, lookupField])

/-- C5 fails as stated: an upstream success envelope whose first record
itself contains an error field makes get_weather_live return a value
carrying both the error discriminant and a weather field — a mix of the
two variants the claim rules out. -/
theorem weather_gateway_mixed_result_counterexample :
    (testApi.get_weather_live "110000"
        (Upstream.body (Json.obj
          [("status", Json.str "1"),
           ("lives", Json.arr [Json.obj
             [("error", Json.str "上游错误"),
              ("temperature", Json.str "25")]])]))).2
      = Json.obj [("error", Json.str "上游错误"), ("temperature", Json.str "25")]
    ∧ hasField (Json.obj [("error", Json.str "上游错误"),
        ("temperature", Json.str "25")]) "error" = true
    ∧ hasField (Json.obj [("error", Json.str "上游错误"),
        ("temperature", Json.str "25")]) "temperature" = true :=
  ⟨by rfl, by rfl, by rfl⟩

/-- C5 (amended): every value either operation returns is exactly one of
three shapes — the message-only exception ErrorResult (a one-field dict),
the shape ErrorResult (error message plus raw_response and nothing else),
or the value extracted verbatim from the decoded body by the status/array
check; the gateway itself never assembles a partially populated value, and
a mix can only arise when the upstream record itself carries an error
field and is passed through verbatim. -/
theorem weather_gateway_result_shapes (api : GaodeWeatherAPI)
    (city : String) (u : Upstream) :
    ((∃ m, (api.get_weather_live city u).2 = Json.obj [("error", Json.str m)])
      ∨ (∃ data, u = Upstream.body data
          ∧ (api.get_weather_live city u).2 = shapeErrorResult data)
      ∨ (∃ data, u = Upstream.body data
          ∧ checkAndTakeFirst data "lives"
              = Except.ok (api.get_weather_live city u).2))
    ∧ ((∃ m, (api.get_weather_forecast city u).2 = Json.obj [("error", Json.str m)])
      ∨ (∃ data, u = Upstream.body data
          ∧ (api.get_weather_forecast city u).2 = shapeErrorResult data)
      ∨ (∃ data, u = Upstream.body data
          ∧ checkAndTakeFirst data "forecasts"
              = Except.ok (api.get_weather_forecast city u).2)) := by
  constructor
  · cases u with
    | raise e => exact Or.inl ⟨"获取天气数据失败: " ++ e, rfl⟩
    | body data =>
      cases h : checkAndTakeFirst data "lives" with
      | ok v =>
        exact Or.inr (Or.inr ⟨data, rfl,
          by simp [GaodeWeatherAPI.get_weather_live, h]⟩)
      | error e =>
        exact Or.inl ⟨"获取天气数据失败: " ++ e,
          by simp [GaodeWeatherAPI.get_weather_live, h, liveExceptionResult]⟩
  · cases u with
    | raise e => exact Or.inl ⟨"获取天气预报数据失败: " ++ e, rfl⟩
    | body data =>
      cases h : checkAndTakeFirst data "forecasts" with
      | ok v =>
        exact Or.inr (Or.inr ⟨data, rfl,
          by simp [GaodeWeatherAPI.get_weather_forecast, h]⟩)
      | error e =>
        exact Or.inl ⟨"获取天气预报数据失败: " ++ e,
          by simp [GaodeWeatherAPI.get_weather_forecast, h, forecastExceptionResult]⟩

/-- C6 fails as stated: on a transport-level failure the live operation
answers with the fixed message 获取天气数据失败 followed by the cause; that
message contains neither the literal operation name "live" nor the spec
wording "failed to fetch live weather", so the error message of the live
operation carries no operation name at all. -/
theorem live_message_lacks_operation_name_counterexample :
    (testApi.get_weather_live "110000" (Upstream.raise "connection refused")).2
      = Json.obj [("error", Json.str "获取天气数据失败: connection refused")]
    ∧ ¬ List.IsInfix "live".toList "获取天气数据失败: connection refused".toList
    ∧ ¬ List.IsInfix "failed to fetch live weather".toList
        "获取天气数据失败: connection refused".toList :=
  ⟨by rfl, by decide, by decide⟩

/-- C6 (amended): on every transport-level failure get_weather_live
returns an ErrorResult whose message is 获取天气数据失败 followed by the
cause, and get_weather_forecast one whose message is 获取天气预报数据失败
followed by the cause; only the forecast message carries an operation
marker (预报), the live message contains no operation name. -/
theorem transport_failure_messages (api : GaodeWeatherAPI) (city : String)
    (e : String) :
    (api.get_weather_live city (Upstream.raise e)).2
      = Json.obj [("error", Json.str ("获取天气数据失败: " ++ e))]
    ∧ (api.get_weather_forecast city (Upstream.raise e)).2
      = Json.obj [("error", Json.str ("获取天气预报数据失败: " ++ e))] :=
  ⟨rfl, rfl⟩

/-- C7: each call issues exactly one GET request, to base_url/weatherInfo,
with exactly the parameters key, city, extensions (base for live, all for
forecast) and output=JSON; the singleton request list shows no retry is
performed. -/
theorem weather_requests_single_get (api : GaodeWeatherAPI) (city : String)
    (u : Upstream) :
    (api.get_weather_live city u).1
      = [{ url := api.base_url ++ "/weatherInfo",
           params := { key := api.api_key, city := city,
                       extensions := "base", output := "JSON" } }]
    ∧ (api.get_weather_forecast city u).1
      = [{ url := api.base_url ++ "/weatherInfo",
           params := { key := api.api_key, city := city,
                       extensions := "all", output := "JSON" } }] :=
  ⟨rfl, rfl⟩

/-- C8 fails as stated: the empty city code is not rejected locally — the
gateway issues the request with city set to the empty string and processes
the upstream response as usual, so non-emptiness is not a condition the
gateway checks. -/
theorem empty_city_code_not_rejected_counterexample :
    testApi.get_weather_live "" (Upstream.body (Json.obj bjLiveFields))
      = ([{ url := "https://test.example.com/v3/weather/weatherInfo",
            params := { key := "test_key", city := "",
                        extensions := "base", output := "JSON" } }],
         bjRecord) := by rfl

/-- C8 (amended): the gateway performs no validation of the city code at
all: every city code, the empty string included, is forwarded unchanged as
the city request parameter with no locally generated rejection, and the
returned value never depends on the city code — invalid codes surface only
through the upstream response. -/
theorem city_code_forwarded_unchanged (api : GaodeWeatherAPI)
    (c₁ c₂ : String) (u : Upstream) :
    (api.get_weather_live c₁ u).1.map (fun r => r.params.city) = [c₁]
    ∧ (api.get_weather_live c₁ u).2 = (api.get_weather_live c₂ u).2
    ∧ (api.get_weather_forecast c₁ u).1.map (fun r => r.params.city) = [c₁]
    ∧ (api.get_weather_forecast c₁ u).2 = (api.get_weather_forecast c₂ u).2 :=
  ⟨rfl, rfl, rfl, rfl⟩

/-- C9: for every province, get_city_codes lists each known city with its
code when the province is in the hardcoded table (every line
"- city: code" occurs in the output), and otherwise returns the not-found
message listing all available provinces of the table. -/
theorem get_city_codes_listing (province : String) :
    (∀ cities, city_codes.lookup province = some cities →
      ∀ p ∈ cities,
        List.IsInfix ("- " ++ p.1 ++ ": " ++ p.2 ++ "\n").toList
          (get_city_codes province).toList)
    ∧ (city_codes.lookup province = none →
        get_city_codes province
          = "未找到 " ++ province ++ " 的城市代码信息。可用的省份有: "
              ++ "北京, 上海, 广东, 江苏, 浙江") := by
  constructor
  · intro cities h
    simp only [city_codes, List.lookup] at h
    split at h
    · next heq =>
      have heq2 := eq_of_beq heq
      subst heq2
      cases h
      decide
    · split at h
      · next heq =>
        have heq2 := eq_of_beq heq
        subst heq2
        cases h
        decide
      · split at h
        · next heq =>
          have heq2 := eq_of_beq heq
          subst heq2
          cases h
          decide
        · split at h
          · next heq =>
            have heq2 := eq_of_beq heq
            subst heq2
            cases h
            decide
          · split at h
            · next heq =>
              have heq2 := eq_of_beq heq
              subst heq2
              cases h
              decide
            · cases h
  · intro h
    have hu : get_city_codes province
        = "未找到 " ++ province ++ " 的城市代码信息。可用的省份有: "
            ++ String.intercalate ", " (city_codes.map (fun p => p.1)) := by
      simp [get_city_codes, h]
    rw [hu]
    rfl

/-- Witness for C9: the 广东 entry lists 深圳 with code 440300, and an
absent province (山东) yields the not-found message naming the five
available provinces. -/
theorem get_city_codes_listing_witness :
    List.IsInfix ("- " ++ "深圳" ++ ": " ++ "440300" ++ "\n").toList
      (get_city_codes "广东").toList
    ∧ get_city_codes "山东"
        = "未找到 " ++ "山东" ++ " 的城市代码信息。可用的省份有: "
            ++ "北京, 上海, 广东, 江苏, 浙江" :=
  ⟨(get_city_codes_listing "广东").1
     [("广州", "440100"), ("深圳", "440300"), ("珠海", "440400")] (by rfl)
     ("深圳", "440300") (by decide),
   (get_city_codes_listing "山东").2 (by rfl)⟩

/-- C10: an ErrorResult carries raw_response exactly on the
decoded-but-check-failed path: a transport-level or decode failure and any
exception raised while the body is inspected yield a message-only
ErrorResult without raw_response, while a decoded body that fails the
status/array check yields the ErrorResult whose raw_response is the full
decoded body — for both operations. -/
theorem error_raw_response_only_on_shape_failure (api : GaodeWeatherAPI)
    (city : String) (e : String) (data : Json) :
    ((api.get_weather_live city (Upstream.raise e)).2 = liveExceptionResult e
      ∧ hasField (liveExceptionResult e) "raw_response" = false
      ∧ (∀ e2, checkAndTakeFirst data "lives" = Except.error e2 →
          (api.get_weather_live city (Upstream.body data)).2
              = liveExceptionResult e2
          ∧ hasField (liveExceptionResult e2) "raw_response" = false)
      ∧ (checkAndTakeFirst data "lives" = Except.ok (shapeErrorResult data) →
          getField (api.get_weather_live city (Upstream.body data)).2
            "raw_response" = some data))
    ∧ ((api.get_weather_forecast city (Upstream.raise e)).2
          = forecastExceptionResult e
      ∧ hasField (forecastExceptionResult e) "raw_response" = false
      ∧ (∀ e2, checkAndTakeFirst data "forecasts" = Except.error e2 →
          (api.get_weather_forecast city (Upstream.body data)).2
              = forecastExceptionResult e2
          ∧ hasField (forecastExceptionResult e2) "raw_response" = false)
      ∧ (checkAndTakeFirst data "forecasts" = Except.ok (shapeErrorResult data) →
          getField (api.get_weather_forecast city (Upstream.body data)).2
            "raw_response" = some data)) := by
  refine ⟨⟨rfl, rfl, ?_, ?_⟩, ⟨rfl, rfl, ?_, ?_⟩⟩
  · intro e2 h
    exact ⟨by simp [GaodeWeatherAPI.get_weather_live, h], rfl⟩
  · intro h
    simp [GaodeWeatherAPI.get_weather_live, h, shapeErrorResult, getField,
          lookupField]
  · intro e2 h
    exact ⟨by simp [GaodeWeatherAPI.get_weather_forecast, h], rfl⟩
  · intro h
    simp [GaodeWeatherAPI.get_weather_forecast, h, shapeErrorResult, getField,
          lookupField]

/-- Witness for C10: a non-object decoded body (a bare JSON array) makes
the live operation answer with a message-only ErrorResult, while the
INVALID_KEY envelope makes it answer with an ErrorResult whose
raw_response is that envelope. -/
theorem error_raw_response_only_on_shape_failure_witness :
    ((testApi.get_weather_live "110000" (Upstream.body (Json.arr []))).2
        = liveExceptionResult "AttributeError: object has no attribute get"
      ∧ hasField
          (liveExceptionResult "AttributeError: object has no attribute get")
          "raw_response" = false)
    ∧ getField (testApi.get_weather_live "110000"
        (Upstream.body invalidKeyBody)).2 "raw_response" = some invalidKeyBody :=
  ⟨(error_raw_response_only_on_shape_failure testApi "110000" "x"
      (Json.arr [])).1.2.2.1 "AttributeError: object has no attribute get"
      (by rfl),
   (error_raw_response_only_on_shape_failure testApi "110000" "x"
      invalidKeyBody).1.2.2.2 (by rfl)⟩
